import Mathlib

/-!
Verification development for the CompositeView offline PDF checker
(`CVOfflineCheck_v3.py`).

The program is shallowly embedded as executable Lean definitions:

* Calendar dates are abstracted as `Int` day numbers counted from a fixed
  Monday epoch, so that `date.weekday()` becomes `day % 7` (`0 = Monday`,
  matching Python, whose ordinal 1 — 0001-01-01 — is a Monday).  The
  rendering `strftime("%Y-%m-%d")` is a bijection between calendar dates
  and ISO date strings, so equality and membership questions about ISO
  date strings are stated directly on day numbers.
* A pandas `DataFrame` is a list of column names plus a list of rows of
  cells.  A cell is either plain text, text that `pd.to_datetime` parses
  (carrying both the text and the day number it denotes), an
  already-parsed datetime value, or NaN.
* `pd.read_csv` is modelled by a reports directory that maps filenames to
  the tables they load; `os.walk` is modelled by the enumeration it
  yields, a list of (directory path, filenames) pairs in visit order (a
  nonexistent search root yields the empty enumeration, exactly as
  `os.walk` does); writing the output CSV is modelled as an event list
  returned by the pipeline.
* String lowering is ASCII case folding, as in the data this program
  handles; Python `str.strip` removes surrounding whitespace.
-/

namespace CVOfflineCheck

/-! ## String helpers (Python `str` operations, char-list based) -/

/-- ASCII lower-casing of one character, the case relevant to
`str.lower()` on the identifiers and filenames this program handles. -/
def lowerChar (c : Char) : Char :=
  if 65 ≤ c.toNat ∧ c.toNat ≤ 90 then Char.ofNat (c.toNat + 32) else c

/-- Python `s.lower()`. -/
def strLower (s : String) : String := ⟨s.data.map lowerChar⟩

/-- Containment of one character sequence in another, Python `needle in hay`. -/
def containsSeq (needle : List Char) : List Char → Bool
  | [] => needle.isEmpty
  | c :: rest => needle.isPrefixOf (c :: rest) || containsSeq needle rest

/-- Python `needle in hay` on strings. -/
def strContains (hay needle : String) : Bool := containsSeq needle.data hay.data

/-- Python `s.endswith(t)`. -/
def strEndsWith (s t : String) : Bool := t.data.isSuffixOf s.data

/-- Python `s.strip()`: trim surrounding whitespace. -/
def strTrim (s : String) : String :=
  ⟨((s.data.dropWhile Char.isWhitespace).reverse.dropWhile Char.isWhitespace).reverse⟩

/-- Replace every occurrence of `pat` (scanning left to right, non
overlapping) by `rep`, as Python `s.replace(pat, rep)` does.  The fuel
argument is the length of the scanned list; every step consumes at least
one character whenever `pat` is nonempty, so the fuel never runs out at
the call site below. -/
def replaceAllAux (pat rep : List Char) : Nat → List Char → List Char
  | 0, _ => []
  | _ + 1, [] => []
  | f + 1, c :: rest =>
    if pat.isPrefixOf (c :: rest) then
      rep ++ replaceAllAux pat rep f ((c :: rest).drop pat.length)
    else
      c :: replaceAllAux pat rep f rest

/-- Python `s.replace(pat, rep)`. -/
def strReplaceAll (s pat rep : String) : String :=
  ⟨replaceAllAux pat.data rep.data s.data.length s.data⟩

/-- Python `os.path.join(a, b)` (separator abstracted as `/`). -/
def joinPath (a b : String) : String := a ++ "/" ++ b

/-! ## Calendar window calculator

Source: `get_weekday_abbreviation` (lines 6-9) and
`get_expected_weekdays_and_dates` (lines 10-24). -/

/-- A Python `datetime`: the calendar date as a day number since a fixed
Monday epoch, plus the time-of-day component.  `t - timedelta(days=1)`
decrements the day and keeps the time of day; `t.weekday()` and
`t.strftime("%Y-%m-%d")` depend only on the day. -/
structure PyDateTime where
  day : Int
  secondsOfDay : Nat
deriving DecidableEq

/-- Python `t.weekday()`: 0 = Monday .. 6 = Sunday. -/
def pyWeekday (t : PyDateTime) : Nat := (t.day % 7).toNat

/-- Python `t - timedelta(days=1)`. -/
def prevDay (t : PyDateTime) : PyDateTime := ⟨t.day - 1, t.secondsOfDay⟩

/-- Python `t.strftime("%Y-%m-%d")`, abstracted by the bijection between
calendar dates and ISO date strings: the rendered string is identified
with the day number it denotes. -/
def strftimeDate (t : PyDateTime) : Int := t.day

/-- Source line 8: the weekday name table. -/
def weekdayNames : List String := ["Mon", "Tue", "Wed", "Thu", "Fri", "Sat", "Sun"]

/-- Source lines 6-9: `weekdays[date.weekday()]`.  The index is always
below 7, so the default is never used. -/
def get_weekday_abbreviation (t : PyDateTime) : String :=
  weekdayNames.getD (pyWeekday t) ""

/-- The `while len(expected_weekdays) < 5` loop of source lines 18-23,
with the number of loop iterations still allowed as fuel.  Any 7
consecutive days contain exactly 5 weekdays, so the loop inspects at most
7 days and fuel 7 realises the full loop. -/
def expectedAux : Nat → Nat → PyDateTime → List String × List Int
  | _, 0, _ => ([], [])
  | 0, _ + 1, _ => ([], [])
  | fuel + 1, needed + 1, t =>
    if pyWeekday t < 5 then
      let rest := expectedAux fuel needed (prevDay t)
      (get_weekday_abbreviation t :: rest.1, strftimeDate t :: rest.2)
    else
      expectedAux fuel (needed + 1) (prevDay t)

/-- Source lines 10-24: walk backward one day at a time from the current
date, keeping weekdays only, until 5 (weekday label, date) pairs are
collected; the lists are most recent first. -/
def get_expected_weekdays_and_dates (current_date : PyDateTime) :
    List String × List Int :=
  expectedAux 7 5 current_date

/-! ## Tables and the schema & date validator

Source: `validate_report_date` (lines 25-50). -/

/-- One pandas cell, as far as this program observes it.  Text that
`pd.to_datetime` parses as a date is represented by both its text and the
day number that text denotes; `date` is an already-parsed datetime value
(what the coerced column holds); `nan` is a missing value (NaN before
coercion, NaT after). -/
inductive Cell where
  | str (s : String)
  | datestr (s : String) (d : Int)
  | date (d : Int)
  | nan
deriving DecidableEq

/-- A pandas DataFrame: ordered column names and rows of cells. -/
structure DataFrame where
  cols : List String
  rows : List (List Cell)
deriving DecidableEq

/-- Pandas `df.empty`: true when either axis has length 0. -/
def DataFrame.empty (df : DataFrame) : Bool :=
  df.rows.isEmpty || df.cols.isEmpty

/-- Source line 35: `'date' in col.lower()`. -/
def hasDateName (c : String) : Bool := strContains (strLower c) "date"

/-- The cells of column `j`, `df[date_column]`. -/
def colOf (df : DataFrame) (j : Nat) : List Cell :=
  df.rows.map (fun r => r.getD j Cell.nan)

/-- In-place column assignment `df[date_column] = parsed` (source line 42):
every row has its `j`-th cell replaced. -/
def setCol (df : DataFrame) (j : Nat) (col : List Cell) : DataFrame :=
  ⟨df.cols, (df.rows.zip col).map (fun rc => rc.1.set j rc.2)⟩

/-- Elementwise `pd.to_datetime`: parseable text and datetime values
parse; NaN parses to NaT; other text raises. -/
def toDatetimeCell : Cell → Option Cell
  | .str _ => none
  | .datestr _ d => some (.date d)
  | .date d => some (.date d)
  | .nan => some .nan

/-- `pd.to_datetime(df[date_column])`: all cells must parse, else the
call raises (caught at source line 49). -/
def toDatetimeColumn : List Cell → Option (List Cell)
  | [] => some []
  | c :: rest =>
    match toDatetimeCell c, toDatetimeColumn rest with
    | some c2, some rest2 => some (c2 :: rest2)
    | _, _ => none

/-- `series.max()` on a datetime column: the greatest date value, NaT
skipped; `none` when no date value is present (all NaT), in which case
`.strftime` on the NaT result raises (caught at source line 49). -/
def maxDateCell : List Cell → Option Int
  | [] => none
  | .date d :: rest =>
    match maxDateCell rest with
    | none => some d
    | some m => some (max d m)
  | _ :: rest => maxDateCell rest

/-- The outcome of `validate_report_date`, the `(is_valid, actual_date,
error_message)` triple of the source collapsed to its informative shape:
`valid d` is `(True, d, None)`; `emptyTable` is "Report is empty";
`noDateColumn` is "No date column found in report"; `dateOutOfWindow d`
is `(False, d, "Report date ... does not match expected dates")`;
`parseError` is `(False, None, "Error parsing dates: ...")`. -/
inductive ValidationResult where
  | valid (date : Int)
  | emptyTable
  | noDateColumn
  | dateOutOfWindow (actual : Int)
  | parseError
deriving DecidableEq

/-- Source lines 25-50.  Returns the table as it stands after the call —
the column assignment at line 42 mutates the caller's DataFrame in place,
so the mutated table is part of the result — together with the verdict. -/
def validate_report_date (df : DataFrame) (expected_dates : List Int) :
    DataFrame × ValidationResult :=
  if df.empty then (df, .emptyTable)
  else
    match df.cols.findIdx? hasDateName with
    | none => (df, .noDateColumn)
    | some j =>
      match toDatetimeColumn (colOf df j) with
      | none => (df, .parseError)
      | some parsed =>
        let df2 := setCol df j parsed
        match maxDateCell parsed with
        | none => (df2, .parseError)
        | some d =>
          if d ∈ expected_dates then (df2, .valid d)
          else (df2, .dateOutOfWindow d)

/-! ## Report selector

Source: `find_and_validate_report` (lines 51-83). -/

/-- The reports directory: which filenames exist and the table
`pd.read_csv` loads from each. -/
abbrev ReportsDir := List (String × DataFrame)

/-- File existence plus `pd.read_csv` (source lines 72-74). -/
def dirLookup (dir : ReportsDir) (name : String) : Option DataFrame :=
  (dir.find? (fun p => decide (p.1 = name))).map (fun p => p.2)

/-- Source line 70: the candidate filename for one weekday label. -/
def candidateFile (report_type weekday : String) : String :=
  report_type ++ "_Diff_" ++ weekday ++ ".csv"

/-- One iteration of the loop at source lines 69-82: look the candidate
file up, load it, validate it; `some` exactly when the file exists and
validates, carrying the (mutated) table, the filename and the validated
date. -/
def reportCandidate (dir : ReportsDir) (report_type : String)
    (expected_dates : List Int) (weekday : String) :
    Option (DataFrame × String × Int) :=
  match dirLookup dir (candidateFile report_type weekday) with
  | none => none
  | some df =>
    match validate_report_date df expected_dates with
    | (df2, .valid d) => some (df2, candidateFile report_type weekday, d)
    | _ => none

/-- Source lines 51-83: `for weekday in reversed(expected_weekdays)`,
returning on the first existing file that validates.  Note the loop runs
over the REVERSED window, and the window lists are most recent first, so
the candidates are visited oldest first. -/
def find_and_validate_report (dir : ReportsDir) (report_type : String)
    (expected_weekdays : List String) (expected_dates : List Int) :
    Option (DataFrame × String × Int) :=
  (expected_weekdays.reverse).findSome? (reportCandidate dir report_type expected_dates)

/-! ## Document locator

Source: `find_pdf` (lines 84-97). -/

/-- The enumeration `os.walk(pdf_base_path)` yields: (directory path,
files in that directory) pairs in visit order.  When the base path does
not exist, `os.walk` yields nothing and the enumeration is empty. -/
abbrev PdfWalk := List (String × List String)

/-- Source lines 93-95: the per-file test.  Only files whose lower-cased
name ends in `.pdf` are considered; the trimmed, lower-cased identifier
must be a substring of the lower-cased filename, or the lower-cased
filename with every occurrence of `.pdf` removed must equal it. -/
def fileMatchB (equipment_name file : String) : Bool :=
  let cl := strLower (strTrim equipment_name)
  let fl := strLower file
  strEndsWith fl ".pdf" &&
    (strContains fl cl || decide (strReplaceAll fl ".pdf" "" = cl))

/-- Modelled from the words of the specification, for comparison with the
source's `fileMatchB`: the second disjunct strips the `.pdf` extension
(the final four characters) instead of removing every `.pdf` occurrence. -/
def specMatchesFile (equipment_name file : String) : Bool :=
  let cl := strLower (strTrim equipment_name)
  let fl := strLower file
  strEndsWith fl ".pdf" &&
    (strContains fl cl || decide ((⟨fl.data.take (fl.data.length - 4)⟩ : String) = cl))

/-- Source lines 84-97: scan the walk, return the joined path of the
first matching file, `none` when the walk finishes without a match. -/
def find_pdf (walk : PdfWalk) (equipment_name : String) : Option String :=
  walk.findSome? (fun rf =>
    rf.2.findSome? (fun file =>
      if fileMatchB equipment_name file then some (joinPath rf.1 file) else none))

/-- The files of a walk flattened to (directory path, filename) pairs in
visit order. -/
def flatFiles (walk : PdfWalk) : List (String × String) :=
  walk.flatMap (fun rf => rf.2.map (fun f => (rf.1, f)))

/-! ## Audit pipeline

Source: `check_pdf_status` (lines 98-224), decomposed into its stages.
Console printing is ignored; the single `result_df.to_csv` call at line
216 is modelled as the write-event list the pipeline returns. -/

/-- Source lines 114-119: select the CompositeView report. -/
def selectedCv (now : PyDateTime) (dir : ReportsDir) :
    Option (DataFrame × String × Int) :=
  find_and_validate_report dir "CompositeView"
    (get_expected_weekdays_and_dates now).1 (get_expected_weekdays_and_dates now).2

/-- Source lines 122-127: select the Substation report. -/
def selectedSub (now : PyDateTime) (dir : ReportsDir) :
    Option (DataFrame × String × Int) :=
  find_and_validate_report dir "Substation"
    (get_expected_weekdays_and_dates now).1 (get_expected_weekdays_and_dates now).2

/-- Column union for `pd.concat`: the first frame's columns, then the
columns only the second frame has, in order. -/
def unionCols (c1 c2 : List String) : List String :=
  c1 ++ c2.filter (fun c => decide (c ∉ c1))

/-- Align one row of a frame to the concatenated column list: cells of
shared columns are kept, columns the source frame lacks get NaN. -/
def reindexRow (oldCols : List String) (row : List Cell) (newCols : List String) :
    List Cell :=
  newCols.map (fun c =>
    match oldCols.findIdx? (fun x => decide (x = c)) with
    | some j => row.getD j Cell.nan
    | none => Cell.nan)

/-- Source line 155: `pd.concat([cv_df, sub_df], ignore_index=True)` —
the CompositeView rows followed by the Substation rows, aligned to the
union of the column sets. -/
def concatDf (a b : DataFrame) : DataFrame :=
  ⟨unionCols a.cols b.cols,
    a.rows.map (fun r => reindexRow a.cols r (unionCols a.cols b.cols)) ++
      b.rows.map (fun r => reindexRow b.cols r (unionCols a.cols b.cols))⟩

/-- Source lines 132-151: abort when either report is missing; otherwise
the concatenated table (the selectors already returned the loaded — and
date-coerced — tables). -/
def combinedDf (now : PyDateTime) (dir : ReportsDir) : Option DataFrame :=
  match selectedCv now dir, selectedSub now dir with
  | some (cv, _, _), some (sub, _, _) => some (concatDf cv sub)
  | _, _ => none

/-- Source line 158. -/
def requiredColumns : List String := ["Equipment Name", "Equipment Type"]

/-- Source line 159: the required columns absent from the merged table. -/
def missingColumns (df : DataFrame) : List String :=
  requiredColumns.filter (fun c => decide (c ∉ df.cols))

/-- Pandas `isin`: a cell equals one of the given strings exactly when it
is that text (datetime values and NaN never equal a string). -/
def cellIsin (c : Cell) (vals : List String) : Bool :=
  match c with
  | .str s => vals.contains s
  | .datestr s _ => vals.contains s
  | _ => false

/-- Source line 167: the accepted equipment categories. -/
def targetTypes : List String := ["Circuit Breaker", "Switch"]

/-- Source lines 166-168: keep the rows whose Equipment Type is a Circuit
Breaker or a Switch, in order.  `none` would be a KeyError on the column
lookup; the pipeline only filters after checking the column exists. -/
def filterEquip (df : DataFrame) : Option DataFrame :=
  match df.cols.findIdx? (fun c => decide (c = "Equipment Type")) with
  | none => none
  | some j =>
    some ⟨df.cols, df.rows.filter (fun r => cellIsin (r.getD j Cell.nan) targetTypes)⟩

/-- Source lines 153-168: combine, abort on missing required columns,
filter. -/
def filteredDf (now : PyDateTime) (dir : ReportsDir) : Option DataFrame :=
  match combinedDf now dir with
  | none => none
  | some c => if missingColumns c ≠ [] then none else filterEquip c

/-- One row of the audit result (the dict built at source lines 187-200). -/
structure AuditEntry where
  name : String
  etype : Cell
  status : String
  path : String
deriving DecidableEq

/-- Reading `row['Equipment Name']` for `find_pdf`: `find_pdf` calls
`.strip()` on the value, so a non-text cell (NaN from column
misalignment, or a datetime) raises an uncaught AttributeError. -/
def cellToStr : Cell → Option String
  | .str s => some s
  | .datestr s _ => some s
  | _ => none

/-- Source lines 178-200, one iteration: look the PDF up for the row's
equipment name; status `Exists` with the resolved path, or `Missing` with
the empty path.  `none` is the uncaught exception on a non-text name. -/
def auditRow (walk : PdfWalk) (jn jt : Nat) (row : List Cell) :
    Option AuditEntry :=
  match cellToStr (row.getD jn Cell.nan) with
  | none => none
  | some name =>
    match find_pdf walk name with
    | some p => some ⟨name, row.getD jt Cell.nan, "Exists", p⟩
    | none => some ⟨name, row.getD jt Cell.nan, "Missing", ""⟩

/-- Source lines 176-200: the `for idx, row in filtered_df.iterrows()`
loop, in row order; an exception anywhere aborts the whole run. -/
def auditEntries (walk : PdfWalk) (jn jt : Nat) :
    List (List Cell) → Option (List AuditEntry)
  | [] => some []
  | r :: rest =>
    match auditRow walk jn jt r with
    | none => none
    | some e => (auditEntries walk jn jt rest).map (fun es => e :: es)

/-- Source lines 165-200: abort when the filtered set is empty, then run
the audit loop. -/
def auditOf (now : PyDateTime) (dir : ReportsDir) (walk : PdfWalk) :
    Option (List AuditEntry) :=
  match filteredDf now dir with
  | none => none
  | some f =>
    if f.rows.isEmpty then none
    else
      match f.cols.findIdx? (fun c => decide (c = "Equipment Name")),
            f.cols.findIdx? (fun c => decide (c = "Equipment Type")) with
      | some jn, some jt => auditEntries walk jn jt f.rows
      | _, _ => none

/-- Source line 202: the result table columns, in dict key order. -/
def resultCols : List String :=
  ["Equipment Name", "Equipment Type", "PDF Status", "PDF Path"]

/-- One audit entry as a result-table row. -/
def entryRow (e : AuditEntry) : List Cell :=
  [.str e.name, e.etype, .str e.status, .str e.path]

/-- Source line 202: `pd.DataFrame(pdf_status)`. -/
def resultDataFrame (es : List AuditEntry) : DataFrame :=
  ⟨resultCols, es.map entryRow⟩

/-- Source lines 204-206: the summary counts
`len(result_df[result_df['PDF Status'] == v])`. -/
def countStatus (df : DataFrame) (v : String) : Nat :=
  match df.cols.findIdx? (fun c => decide (c = "PDF Status")) with
  | none => 0
  | some j =>
    (df.rows.filter (fun r => decide (r.getD j Cell.nan = Cell.str v))).length

/-- Source lines 98-224: the whole pipeline.  The first component is the
returned result (`None` on any abort or uncaught exception); the second
is the list of output files written, each with its content — a single
write at `os.path.join(output_folder, output_filename)` (line 215-216)
happens exactly on the completed path. -/
def check_pdf_status (now : PyDateTime) (dir : ReportsDir) (walk : PdfWalk)
    (output_folder output_filename : String) :
    Option DataFrame × List (String × DataFrame) :=
  match auditOf now dir walk with
  | none => (none, [])
  | some es =>
    (some (resultDataFrame es),
      [(joinPath output_folder output_filename, resultDataFrame es)])

/-! ## Helper lemmas: the calendar window -/

/-- Unfolding of the collection loop at a weekday. -/
lemma expectedAux_weekday (f n : Nat) (d : Int) (s : Nat) (h : d % 7 < 5) :
    expectedAux (f + 1) (n + 1) ⟨d, s⟩ =
      (get_weekday_abbreviation ⟨d, s⟩ :: (expectedAux f n ⟨d - 1, s⟩).1,
       d :: (expectedAux f n ⟨d - 1, s⟩).2) := by
  have hw : pyWeekday ⟨d, s⟩ < 5 := by
    simp only [pyWeekday]
    omega
  simp [expectedAux, hw, prevDay, strftimeDate]

/-- Unfolding of the collection loop at a weekend day. -/
lemma expectedAux_weekend (f n : Nat) (d : Int) (s : Nat) (h : ¬ d % 7 < 5) :
    expectedAux (f + 1) (n + 1) ⟨d, s⟩ = expectedAux f (n + 1) ⟨d - 1, s⟩ := by
  have hw : ¬ pyWeekday ⟨d, s⟩ < 5 := by
    simp only [pyWeekday]
    omega
  simp [expectedAux, hw, prevDay]

/-- Nothing is collected once 5 entries are present. -/
lemma expectedAux_zero (f : Nat) (t : PyDateTime) : expectedAux f 0 t = ([], []) := by
  cases f <;> rfl

/-- The weekday label of a date with a known weekday. -/
lemma abbrev_eval (d : Int) (s : Nat) (k : Nat) (hk : d % 7 = (k : Int)) :
    get_weekday_abbreviation ⟨d, s⟩ = weekdayNames.getD k "" := by
  simp [get_weekday_abbreviation, pyWeekday, hk]

/-- The window computed from a Monday. -/
lemma window_mon (d : Int) (s : Nat) (h : d % 7 = 0) :
    get_expected_weekdays_and_dates ⟨d, s⟩ =
      (["Mon", "Fri", "Thu", "Wed", "Tue"], [d, d - 3, d - 4, d - 5, d - 6]) := by
  show expectedAux 7 5 ⟨d, s⟩ = _
  rw [(expectedAux_weekday 6 4 d s (by omega) : expectedAux 7 5 ⟨d, s⟩ = _)]
  rw [(expectedAux_weekend 5 3 (d - 1) s (by omega) : expectedAux 6 4 ⟨d - 1, s⟩ = _)]
  rw [(expectedAux_weekend 4 3 (d - 1 - 1) s (by omega) :
    expectedAux 5 4 ⟨d - 1 - 1, s⟩ = _)]
  rw [(expectedAux_weekday 3 3 (d - 1 - 1 - 1) s (by omega) :
    expectedAux 4 4 ⟨d - 1 - 1 - 1, s⟩ = _)]
  rw [(expectedAux_weekday 2 2 (d - 1 - 1 - 1 - 1) s (by omega) :
    expectedAux 3 3 ⟨d - 1 - 1 - 1 - 1, s⟩ = _)]
  rw [(expectedAux_weekday 1 1 (d - 1 - 1 - 1 - 1 - 1) s (by omega) :
    expectedAux 2 2 ⟨d - 1 - 1 - 1 - 1 - 1, s⟩ = _)]
  rw [(expectedAux_weekday 0 0 (d - 1 - 1 - 1 - 1 - 1 - 1) s (by omega) :
    expectedAux 1 1 ⟨d - 1 - 1 - 1 - 1 - 1 - 1, s⟩ = _)]
  rw [expectedAux_zero 0 ⟨d - 1 - 1 - 1 - 1 - 1 - 1 - 1, s⟩]
  rw [abbrev_eval d s 0 (by omega), abbrev_eval (d - 1 - 1 - 1) s 4 (by omega),
    abbrev_eval (d - 1 - 1 - 1 - 1) s 3 (by omega),
    abbrev_eval (d - 1 - 1 - 1 - 1 - 1) s 2 (by omega),
    abbrev_eval (d - 1 - 1 - 1 - 1 - 1 - 1) s 1 (by omega)]
  simp only [show weekdayNames.getD 0 "" = "Mon" from rfl,
    show weekdayNames.getD 4 "" = "Fri" from rfl,
    show weekdayNames.getD 3 "" = "Thu" from rfl,
    show weekdayNames.getD 2 "" = "Wed" from rfl,
    show weekdayNames.getD 1 "" = "Tue" from rfl,
    Prod.mk.injEq, List.cons.injEq, true_and, and_true]
  omega

/-- The window computed from a Tuesday. -/
lemma window_tue (d : Int) (s : Nat) (h : d % 7 = 1) :
    get_expected_weekdays_and_dates ⟨d, s⟩ =
      (["Tue", "Mon", "Fri", "Thu", "Wed"], [d, d - 1, d - 4, d - 5, d - 6]) := by
  show expectedAux 7 5 ⟨d, s⟩ = _
  rw [(expectedAux_weekday 6 4 d s (by omega) :
    expectedAux 7 5 ⟨d, s⟩ = _)]
  rw [(expectedAux_weekday 5 3 (d - 1) s (by omega) :
    expectedAux 6 4 ⟨d - 1, s⟩ = _)]
  rw [(expectedAux_weekend 4 2 (d - 1 - 1) s (by omega) :
    expectedAux 5 3 ⟨d - 1 - 1, s⟩ = _)]
  rw [(expectedAux_weekend 3 2 (d - 1 - 1 - 1) s (by omega) :
    expectedAux 4 3 ⟨d - 1 - 1 - 1, s⟩ = _)]
  rw [(expectedAux_weekday 2 2 (d - 1 - 1 - 1 - 1) s (by omega) :
    expectedAux 3 3 ⟨d - 1 - 1 - 1 - 1, s⟩ = _)]
  rw [(expectedAux_weekday 1 1 (d - 1 - 1 - 1 - 1 - 1) s (by omega) :
    expectedAux 2 2 ⟨d - 1 - 1 - 1 - 1 - 1, s⟩ = _)]
  rw [(expectedAux_weekday 0 0 (d - 1 - 1 - 1 - 1 - 1 - 1) s (by omega) :
    expectedAux 1 1 ⟨d - 1 - 1 - 1 - 1 - 1 - 1, s⟩ = _)]
  rw [expectedAux_zero 0 ⟨d - 1 - 1 - 1 - 1 - 1 - 1 - 1, s⟩]
  rw [abbrev_eval d s 1 (by omega),
    abbrev_eval (d - 1) s 0 (by omega),
    abbrev_eval (d - 1 - 1 - 1 - 1) s 4 (by omega),
    abbrev_eval (d - 1 - 1 - 1 - 1 - 1) s 3 (by omega),
    abbrev_eval (d - 1 - 1 - 1 - 1 - 1 - 1) s 2 (by omega)]
  simp only [show weekdayNames.getD 0 "" = "Mon" from rfl,
    show weekdayNames.getD 1 "" = "Tue" from rfl,
    show weekdayNames.getD 2 "" = "Wed" from rfl,
    show weekdayNames.getD 3 "" = "Thu" from rfl,
    show weekdayNames.getD 4 "" = "Fri" from rfl,
    Prod.mk.injEq, List.cons.injEq, true_and, and_true]
  omega

/-- The window computed from a Wednesday. -/
lemma window_wed (d : Int) (s : Nat) (h : d % 7 = 2) :
    get_expected_weekdays_and_dates ⟨d, s⟩ =
      (["Wed", "Tue", "Mon", "Fri", "Thu"], [d, d - 1, d - 2, d - 5, d - 6]) := by
  show expectedAux 7 5 ⟨d, s⟩ = _
  rw [(expectedAux_weekday 6 4 d s (by omega) :
    expectedAux 7 5 ⟨d, s⟩ = _)]
  rw [(expectedAux_weekday 5 3 (d - 1) s (by omega) :
    expectedAux 6 4 ⟨d - 1, s⟩ = _)]
  rw [(expectedAux_weekday 4 2 (d - 1 - 1) s (by omega) :
    expectedAux 5 3 ⟨d - 1 - 1, s⟩ = _)]
  rw [(expectedAux_weekend 3 1 (d - 1 - 1 - 1) s (by omega) :
    expectedAux 4 2 ⟨d - 1 - 1 - 1, s⟩ = _)]
  rw [(expectedAux_weekend 2 1 (d - 1 - 1 - 1 - 1) s (by omega) :
    expectedAux 3 2 ⟨d - 1 - 1 - 1 - 1, s⟩ = _)]
  rw [(expectedAux_weekday 1 1 (d - 1 - 1 - 1 - 1 - 1) s (by omega) :
    expectedAux 2 2 ⟨d - 1 - 1 - 1 - 1 - 1, s⟩ = _)]
  rw [(expectedAux_weekday 0 0 (d - 1 - 1 - 1 - 1 - 1 - 1) s (by omega) :
    expectedAux 1 1 ⟨d - 1 - 1 - 1 - 1 - 1 - 1, s⟩ = _)]
  rw [expectedAux_zero 0 ⟨d - 1 - 1 - 1 - 1 - 1 - 1 - 1, s⟩]
  rw [abbrev_eval d s 2 (by omega),
    abbrev_eval (d - 1) s 1 (by omega),
    abbrev_eval (d - 1 - 1) s 0 (by omega),
    abbrev_eval (d - 1 - 1 - 1 - 1 - 1) s 4 (by omega),
    abbrev_eval (d - 1 - 1 - 1 - 1 - 1 - 1) s 3 (by omega)]
  simp only [show weekdayNames.getD 0 "" = "Mon" from rfl,
    show weekdayNames.getD 1 "" = "Tue" from rfl,
    show weekdayNames.getD 2 "" = "Wed" from rfl,
    show weekdayNames.getD 3 "" = "Thu" from rfl,
    show weekdayNames.getD 4 "" = "Fri" from rfl,
    Prod.mk.injEq, List.cons.injEq, true_and, and_true]
  omega

/-- The window computed from a Thursday. -/
lemma window_thu (d : Int) (s : Nat) (h : d % 7 = 3) :
    get_expected_weekdays_and_dates ⟨d, s⟩ =
      (["Thu", "Wed", "Tue", "Mon", "Fri"], [d, d - 1, d - 2, d - 3, d - 6]) := by
  show expectedAux 7 5 ⟨d, s⟩ = _
  rw [(expectedAux_weekday 6 4 d s (by omega) :
    expectedAux 7 5 ⟨d, s⟩ = _)]
  rw [(expectedAux_weekday 5 3 (d - 1) s (by omega) :
    expectedAux 6 4 ⟨d - 1, s⟩ = _)]
  rw [(expectedAux_weekday 4 2 (d - 1 - 1) s (by omega) :
    expectedAux 5 3 ⟨d - 1 - 1, s⟩ = _)]
  rw [(expectedAux_weekday 3 1 (d - 1 - 1 - 1) s (by omega) :
    expectedAux 4 2 ⟨d - 1 - 1 - 1, s⟩ = _)]
  rw [(expectedAux_weekend 2 0 (d - 1 - 1 - 1 - 1) s (by omega) :
    expectedAux 3 1 ⟨d - 1 - 1 - 1 - 1, s⟩ = _)]
  rw [(expectedAux_weekend 1 0 (d - 1 - 1 - 1 - 1 - 1) s (by omega) :
    expectedAux 2 1 ⟨d - 1 - 1 - 1 - 1 - 1, s⟩ = _)]
  rw [(expectedAux_weekday 0 0 (d - 1 - 1 - 1 - 1 - 1 - 1) s (by omega) :
    expectedAux 1 1 ⟨d - 1 - 1 - 1 - 1 - 1 - 1, s⟩ = _)]
  rw [expectedAux_zero 0 ⟨d - 1 - 1 - 1 - 1 - 1 - 1 - 1, s⟩]
  rw [abbrev_eval d s 3 (by omega),
    abbrev_eval (d - 1) s 2 (by omega),
    abbrev_eval (d - 1 - 1) s 1 (by omega),
    abbrev_eval (d - 1 - 1 - 1) s 0 (by omega),
    abbrev_eval (d - 1 - 1 - 1 - 1 - 1 - 1) s 4 (by omega)]
  simp only [show weekdayNames.getD 0 "" = "Mon" from rfl,
    show weekdayNames.getD 1 "" = "Tue" from rfl,
    show weekdayNames.getD 2 "" = "Wed" from rfl,
    show weekdayNames.getD 3 "" = "Thu" from rfl,
    show weekdayNames.getD 4 "" = "Fri" from rfl,
    Prod.mk.injEq, List.cons.injEq, true_and, and_true]
  omega

/-- The window computed from a Friday. -/
lemma window_fri (d : Int) (s : Nat) (h : d % 7 = 4) :
    get_expected_weekdays_and_dates ⟨d, s⟩ =
      (["Fri", "Thu", "Wed", "Tue", "Mon"], [d, d - 1, d - 2, d - 3, d - 4]) := by
  show expectedAux 7 5 ⟨d, s⟩ = _
  rw [(expectedAux_weekday 6 4 d s (by omega) :
    expectedAux 7 5 ⟨d, s⟩ = _)]
  rw [(expectedAux_weekday 5 3 (d - 1) s (by omega) :
    expectedAux 6 4 ⟨d - 1, s⟩ = _)]
  rw [(expectedAux_weekday 4 2 (d - 1 - 1) s (by omega) :
    expectedAux 5 3 ⟨d - 1 - 1, s⟩ = _)]
  rw [(expectedAux_weekday 3 1 (d - 1 - 1 - 1) s (by omega) :
    expectedAux 4 2 ⟨d - 1 - 1 - 1, s⟩ = _)]
  rw [(expectedAux_weekday 2 0 (d - 1 - 1 - 1 - 1) s (by omega) :
    expectedAux 3 1 ⟨d - 1 - 1 - 1 - 1, s⟩ = _)]
  rw [expectedAux_zero 2 ⟨d - 1 - 1 - 1 - 1 - 1, s⟩]
  rw [abbrev_eval d s 4 (by omega),
    abbrev_eval (d - 1) s 3 (by omega),
    abbrev_eval (d - 1 - 1) s 2 (by omega),
    abbrev_eval (d - 1 - 1 - 1) s 1 (by omega),
    abbrev_eval (d - 1 - 1 - 1 - 1) s 0 (by omega)]
  simp only [show weekdayNames.getD 0 "" = "Mon" from rfl,
    show weekdayNames.getD 1 "" = "Tue" from rfl,
    show weekdayNames.getD 2 "" = "Wed" from rfl,
    show weekdayNames.getD 3 "" = "Thu" from rfl,
    show weekdayNames.getD 4 "" = "Fri" from rfl,
    Prod.mk.injEq, List.cons.injEq, true_and, and_true]
  omega

/-- The window computed from a Saturday. -/
lemma window_sat (d : Int) (s : Nat) (h : d % 7 = 5) :
    get_expected_weekdays_and_dates ⟨d, s⟩ =
      (["Fri", "Thu", "Wed", "Tue", "Mon"], [d - 1, d - 2, d - 3, d - 4, d - 5]) := by
  show expectedAux 7 5 ⟨d, s⟩ = _
  rw [(expectedAux_weekend 6 4 d s (by omega) :
    expectedAux 7 5 ⟨d, s⟩ = _)]
  rw [(expectedAux_weekday 5 4 (d - 1) s (by omega) :
    expectedAux 6 5 ⟨d - 1, s⟩ = _)]
  rw [(expectedAux_weekday 4 3 (d - 1 - 1) s (by omega) :
    expectedAux 5 4 ⟨d - 1 - 1, s⟩ = _)]
  rw [(expectedAux_weekday 3 2 (d - 1 - 1 - 1) s (by omega) :
    expectedAux 4 3 ⟨d - 1 - 1 - 1, s⟩ = _)]
  rw [(expectedAux_weekday 2 1 (d - 1 - 1 - 1 - 1) s (by omega) :
    expectedAux 3 2 ⟨d - 1 - 1 - 1 - 1, s⟩ = _)]
  rw [(expectedAux_weekday 1 0 (d - 1 - 1 - 1 - 1 - 1) s (by omega) :
    expectedAux 2 1 ⟨d - 1 - 1 - 1 - 1 - 1, s⟩ = _)]
  rw [expectedAux_zero 1 ⟨d - 1 - 1 - 1 - 1 - 1 - 1, s⟩]
  rw [abbrev_eval (d - 1) s 4 (by omega),
    abbrev_eval (d - 1 - 1) s 3 (by omega),
    abbrev_eval (d - 1 - 1 - 1) s 2 (by omega),
    abbrev_eval (d - 1 - 1 - 1 - 1) s 1 (by omega),
    abbrev_eval (d - 1 - 1 - 1 - 1 - 1) s 0 (by omega)]
  simp only [show weekdayNames.getD 0 "" = "Mon" from rfl,
    show weekdayNames.getD 1 "" = "Tue" from rfl,
    show weekdayNames.getD 2 "" = "Wed" from rfl,
    show weekdayNames.getD 3 "" = "Thu" from rfl,
    show weekdayNames.getD 4 "" = "Fri" from rfl,
    Prod.mk.injEq, List.cons.injEq, true_and, and_true]
  omega

/-- The window computed from a Sunday. -/
lemma window_sun (d : Int) (s : Nat) (h : d % 7 = 6) :
    get_expected_weekdays_and_dates ⟨d, s⟩ =
      (["Fri", "Thu", "Wed", "Tue", "Mon"], [d - 2, d - 3, d - 4, d - 5, d - 6]) := by
  show expectedAux 7 5 ⟨d, s⟩ = _
  rw [(expectedAux_weekend 6 4 d s (by omega) :
    expectedAux 7 5 ⟨d, s⟩ = _)]
  rw [(expectedAux_weekend 5 4 (d - 1) s (by omega) :
    expectedAux 6 5 ⟨d - 1, s⟩ = _)]
  rw [(expectedAux_weekday 4 4 (d - 1 - 1) s (by omega) :
    expectedAux 5 5 ⟨d - 1 - 1, s⟩ = _)]
  rw [(expectedAux_weekday 3 3 (d - 1 - 1 - 1) s (by omega) :
    expectedAux 4 4 ⟨d - 1 - 1 - 1, s⟩ = _)]
  rw [(expectedAux_weekday 2 2 (d - 1 - 1 - 1 - 1) s (by omega) :
    expectedAux 3 3 ⟨d - 1 - 1 - 1 - 1, s⟩ = _)]
  rw [(expectedAux_weekday 1 1 (d - 1 - 1 - 1 - 1 - 1) s (by omega) :
    expectedAux 2 2 ⟨d - 1 - 1 - 1 - 1 - 1, s⟩ = _)]
  rw [(expectedAux_weekday 0 0 (d - 1 - 1 - 1 - 1 - 1 - 1) s (by omega) :
    expectedAux 1 1 ⟨d - 1 - 1 - 1 - 1 - 1 - 1, s⟩ = _)]
  rw [expectedAux_zero 0 ⟨d - 1 - 1 - 1 - 1 - 1 - 1 - 1, s⟩]
  rw [abbrev_eval (d - 1 - 1) s 4 (by omega),
    abbrev_eval (d - 1 - 1 - 1) s 3 (by omega),
    abbrev_eval (d - 1 - 1 - 1 - 1) s 2 (by omega),
    abbrev_eval (d - 1 - 1 - 1 - 1 - 1) s 1 (by omega),
    abbrev_eval (d - 1 - 1 - 1 - 1 - 1 - 1) s 0 (by omega)]
  simp only [show weekdayNames.getD 0 "" = "Mon" from rfl,
    show weekdayNames.getD 1 "" = "Tue" from rfl,
    show weekdayNames.getD 2 "" = "Wed" from rfl,
    show weekdayNames.getD 3 "" = "Thu" from rfl,
    show weekdayNames.getD 4 "" = "Fri" from rfl,
    Prod.mk.injEq, List.cons.injEq, true_and, and_true]
  omega


/-- The collection loop never looks at the time-of-day component. -/
lemma expectedAux_day_only (f : Nat) :
    ∀ (n : Nat) (t₁ t₂ : PyDateTime), t₁.day = t₂.day →
      expectedAux f n t₁ = expectedAux f n t₂ := by
  induction f with
  | zero =>
    intro n t₁ t₂ _
    cases n with
    | zero => rfl
    | succ n => rfl
  | succ f ih =>
    intro n t₁ t₂ h
    obtain ⟨d1, s1⟩ := t₁
    obtain ⟨d2, s2⟩ := t₂
    have h2 : d1 = d2 := h
    subst h2
    cases n with
    | zero => exact (expectedAux_zero (f + 1) _).trans (expectedAux_zero (f + 1) _).symm
    | succ n =>
      by_cases hw : d1 % 7 < 5
      · rw [expectedAux_weekday f n d1 s1 hw, expectedAux_weekday f n d1 s2 hw,
          ih n ⟨d1 - 1, s1⟩ ⟨d1 - 1, s2⟩ rfl]
        rfl
      · rw [expectedAux_weekend f n d1 s1 hw, expectedAux_weekend f n d1 s2 hw]
        exact ih (n + 1) ⟨d1 - 1, s1⟩ ⟨d1 - 1, s2⟩ rfl

/-- Shared shape argument for the window invariants: any 5 explicit
strictly decreasing weekday day numbers below a bound satisfy them. -/
lemma window_props_explicit (d x1 x2 x3 x4 x5 : Int)
    (hd : x1 ≤ d ∧ x2 ≤ d ∧ x3 ≤ d ∧ x4 ≤ d ∧ x5 ≤ d)
    (hw : x1 % 7 < 5 ∧ x2 % 7 < 5 ∧ x3 % 7 < 5 ∧ x4 % 7 < 5 ∧ x5 % 7 < 5)
    (hs : x1 > x2 ∧ x2 > x3 ∧ x3 > x4 ∧ x4 > x5) :
    List.Pairwise (fun a b => a > b) [x1, x2, x3, x4, x5] ∧
    (∀ x ∈ [x1, x2, x3, x4, x5], 0 ≤ x % 7 ∧ x % 7 < 5 ∧ x ≤ d) ∧
    List.Nodup [x1, x2, x3, x4, x5] := by
  have hpw : List.Pairwise (fun a b : Int => a > b) [x1, x2, x3, x4, x5] := by
    refine List.Pairwise.cons ?_ (List.Pairwise.cons ?_ (List.Pairwise.cons ?_
      (List.Pairwise.cons ?_ (List.pairwise_singleton _ _))))
    · intro b hb
      simp only [List.mem_cons, List.not_mem_nil, or_false] at hb
      rcases hb with rfl | rfl | rfl | rfl <;> omega
    · intro b hb
      simp only [List.mem_cons, List.not_mem_nil, or_false] at hb
      rcases hb with rfl | rfl | rfl <;> omega
    · intro b hb
      simp only [List.mem_cons, List.not_mem_nil, or_false] at hb
      rcases hb with rfl | rfl <;> omega
    · intro b hb
      simp only [List.mem_singleton] at hb
      subst hb
      omega
  refine ⟨hpw, ?_, hpw.imp (fun h => ne_of_gt h)⟩
  intro x hx
  simp only [List.mem_cons, List.not_mem_nil, or_false] at hx
  rcases hx with rfl | rfl | rfl | rfl | rfl <;> omega

/-! ## Claim C3 and claim C9 -/

/-- C3: for every valid reference date, the Calendar Window Calculator
returns exactly 5 (weekday-label, date) pairs, every date is a weekday
(Monday through Friday, never Saturday or Sunday — its weekday index is
below 5), all 5 dates are distinct, and the dates are strictly decreasing
starting at or before the reference date. -/
theorem claim_C3_window_invariants (t : PyDateTime) :
    (get_expected_weekdays_and_dates t).1.length = 5 ∧
    (get_expected_weekdays_and_dates t).2.length = 5 ∧
    List.Pairwise (fun a b => a > b) (get_expected_weekdays_and_dates t).2 ∧
    (∀ x ∈ (get_expected_weekdays_and_dates t).2,
      0 ≤ x % 7 ∧ x % 7 < 5 ∧ x ≤ t.day) ∧
    (get_expected_weekdays_and_dates t).2.Nodup := by
  obtain ⟨d, s⟩ := t
  have h7 : d % 7 = 0 ∨ d % 7 = 1 ∨ d % 7 = 2 ∨ d % 7 = 3 ∨ d % 7 = 4 ∨
      d % 7 = 5 ∨ d % 7 = 6 := by omega
  rcases h7 with h | h | h | h | h | h | h
  · rw [window_mon d s h]
    have hp := window_props_explicit d d (d - 3) (d - 4) (d - 5) (d - 6)
      (by omega) (by omega) (by omega)
    exact ⟨rfl, rfl, hp.1, hp.2.1, hp.2.2⟩
  · rw [window_tue d s h]
    have hp := window_props_explicit d d (d - 1) (d - 4) (d - 5) (d - 6)
      (by omega) (by omega) (by omega)
    exact ⟨rfl, rfl, hp.1, hp.2.1, hp.2.2⟩
  · rw [window_wed d s h]
    have hp := window_props_explicit d d (d - 1) (d - 2) (d - 5) (d - 6)
      (by omega) (by omega) (by omega)
    exact ⟨rfl, rfl, hp.1, hp.2.1, hp.2.2⟩
  · rw [window_thu d s h]
    have hp := window_props_explicit d d (d - 1) (d - 2) (d - 3) (d - 6)
      (by omega) (by omega) (by omega)
    exact ⟨rfl, rfl, hp.1, hp.2.1, hp.2.2⟩
  · rw [window_fri d s h]
    have hp := window_props_explicit d d (d - 1) (d - 2) (d - 3) (d - 4)
      (by omega) (by omega) (by omega)
    exact ⟨rfl, rfl, hp.1, hp.2.1, hp.2.2⟩
  · rw [window_sat d s h]
    have hp := window_props_explicit d (d - 1) (d - 2) (d - 3) (d - 4) (d - 5)
      (by omega) (by omega) (by omega)
    exact ⟨rfl, rfl, hp.1, hp.2.1, hp.2.2⟩
  · rw [window_sun d s h]
    have hp := window_props_explicit d (d - 2) (d - 3) (d - 4) (d - 5) (d - 6)
      (by omega) (by omega) (by omega)
    exact ⟨rfl, rfl, hp.1, hp.2.1, hp.2.2⟩

/-- Witness for C3: the inner weekday-and-bound fact discharged at the
reference date with day number 0 (a Monday) and its own window head. -/
theorem claim_C3_witness :
    0 ∈ (get_expected_weekdays_and_dates ⟨0, 0⟩).2 ∧
      (0 ≤ (0 : Int) % 7 ∧ (0 : Int) % 7 < 5 ∧ (0 : Int) ≤ 0) :=
  ⟨by decide, (claim_C3_window_invariants ⟨0, 0⟩).2.2.2.1 0 (by decide)⟩

/-- C9: two reference datetimes on the same calendar date that differ in
their time-of-day component produce the same window. -/
theorem claim_C9_time_of_day_invariance (t₁ t₂ : PyDateTime)
    (hday : t₁.day = t₂.day) (_htod : t₁.secondsOfDay ≠ t₂.secondsOfDay) :
    get_expected_weekdays_and_dates t₁ = get_expected_weekdays_and_dates t₂ :=
  expectedAux_day_only 7 5 t₁ t₂ hday

/-- Witness for C9: midnight and one-minute-past-midnight of the same
Monday produce the same window. -/
theorem claim_C9_witness :
    get_expected_weekdays_and_dates ⟨0, 0⟩ = get_expected_weekdays_and_dates ⟨0, 60⟩ :=
  claim_C9_time_of_day_invariance ⟨0, 0⟩ ⟨0, 60⟩ rfl (by decide)

/-! ## Helper lemmas: the schema & date validator -/

/-- For a table with at least one column, `df.empty` means no rows. -/
lemma empty_iff_rows (df : DataFrame) (hc : df.cols ≠ []) :
    df.empty = true ↔ df.rows = [] := by
  simp [DataFrame.empty, List.isEmpty_iff, hc]

/-- Parsing a column preserves its length. -/
lemma toDatetimeColumn_length :
    ∀ (col parsed : List Cell), toDatetimeColumn col = some parsed →
      parsed.length = col.length := by
  intro col
  induction col with
  | nil =>
    intro parsed h
    cases h
    rfl
  | cons c rest ih =>
    intro parsed h
    rw [toDatetimeColumn] at h
    rcases hc : toDatetimeCell c with _ | c2 <;> rw [hc] at h
    · cases h
    · rcases hr : toDatetimeColumn rest with _ | rest2 <;> rw [hr] at h
      · cases h
      · cases h
        simp [ih rest2 hr]

/-- Column assignment never changes the column names. -/
lemma setCol_cols (df : DataFrame) (j : Nat) (col : List Cell) :
    (setCol df j col).cols = df.cols := rfl

/-- Column assignment with a full-length column keeps the row count. -/
lemma setCol_rows_length (df : DataFrame) (j : Nat) (col : List Cell)
    (h : col.length = df.rows.length) :
    (setCol df j col).rows.length = df.rows.length := by
  simp [setCol, h]

/-- Reading any position other than the assigned one is unchanged. -/
lemma getD_set_ne (r : List Cell) (j j' : Nat) (c : Cell) (hne : j' ≠ j) :
    (r.set j c).getD j' Cell.nan = r.getD j' Cell.nan := by
  simp [List.getD_eq_getElem?_getD, List.getElem?_set_ne (Ne.symm hne)]

/-- Assigning column `j` leaves every other column unchanged. -/
lemma colOf_setCol_ne (df : DataFrame) (j : Nat) (col : List Cell)
    (j' : Nat) (hne : j' ≠ j) :
    colOf (setCol df j col) j' = (df.rows.zip col).map (fun rc => rc.1.getD j' Cell.nan) := by
  rcases df with ⟨cols, rows⟩
  simp only [colOf, setCol, List.map_map]
  apply List.map_congr_left
  intro rc _
  exact getD_set_ne rc.1 j j' rc.2 hne

/-- With a full-length assigned column the zipped first components are
exactly the original rows. -/
lemma zip_fst_map (rows : List (List Cell)) :
    ∀ (col : List Cell), col.length = rows.length →
      ∀ (g : List Cell → Cell),
        (rows.zip col).map (fun rc => g rc.1) = rows.map g := by
  induction rows with
  | nil =>
    intro col _ g
    simp
  | cons r rs ih =>
    intro col hlen g
    cases col with
    | nil => simp at hlen
    | cons c cs =>
      simp only [List.zip_cons_cons, List.map_cons]
      rw [ih cs (by simpa using hlen) g]

/-- A table with columns that fails the emptiness test has rows. -/
lemma rows_ne_of_not_empty (df : DataFrame) (he : ¬ df.empty = true) :
    df.rows ≠ [] := by
  intro hr
  exact he (by simp [DataFrame.empty, hr])

/-- Case characterization: the validator reports an empty table exactly
when the table has no rows (given it has a column, as every table loaded
from a CSV does). -/
lemma validate_snd_emptyTable (df : DataFrame) (ds : List Int) (hc : df.cols ≠ []) :
    (validate_report_date df ds).2 = .emptyTable ↔ df.rows = [] := by
  rw [validate_report_date]
  by_cases he : df.empty
  · simp [he, (empty_iff_rows df hc).mp he]
  · have hr := rows_ne_of_not_empty df he
    rcases hfi : df.cols.findIdx? hasDateName with _ | j
    · simp [he, hfi, hr]
    · rcases hp : toDatetimeColumn (colOf df j) with _ | parsed
      · simp [he, hfi, hp, hr]
      · rcases hm : maxDateCell parsed with _ | m
        · simp [he, hfi, hp, hm, hr]
        · by_cases hmem : m ∈ ds <;> simp [he, hfi, hp, hm, hmem, hr]

/-- Case characterization: the validator reports a missing date column
exactly when the table has rows but no column whose lower-cased name
contains "date". -/
lemma validate_snd_noDateColumn (df : DataFrame) (ds : List Int) (hc : df.cols ≠ []) :
    (validate_report_date df ds).2 = .noDateColumn ↔
      df.rows ≠ [] ∧ df.cols.findIdx? hasDateName = none := by
  rw [validate_report_date]
  by_cases he : df.empty
  · simp [he, (empty_iff_rows df hc).mp he]
  · have hr := rows_ne_of_not_empty df he
    rcases hfi : df.cols.findIdx? hasDateName with _ | j
    · simp [he, hfi, hr]
    · rcases hp : toDatetimeColumn (colOf df j) with _ | parsed
      · simp [he, hfi, hp, hr]
      · rcases hm : maxDateCell parsed with _ | m
        · simp [he, hfi, hp, hm, hr]
        · by_cases hmem : m ∈ ds <;> simp [he, hfi, hp, hm, hmem, hr]

/-- Case characterization: the validator succeeds with `dt` exactly when
the table has rows, a date column is found, the column parses with
maximum date `dt`, and `dt` is one of the accepted dates. -/
lemma validate_snd_valid (df : DataFrame) (ds : List Int) (dt : Int) (hc : df.cols ≠ []) :
    (validate_report_date df ds).2 = .valid dt ↔
      df.rows ≠ [] ∧ ∃ j, df.cols.findIdx? hasDateName = some j ∧
        ∃ parsed, toDatetimeColumn (colOf df j) = some parsed ∧
          maxDateCell parsed = some dt ∧ dt ∈ ds := by
  rw [validate_report_date]
  by_cases he : df.empty
  · simp [he, (empty_iff_rows df hc).mp he]
  · have hr := rows_ne_of_not_empty df he
    rcases hfi : df.cols.findIdx? hasDateName with _ | j
    · simp [he, hfi, hr]
    · rcases hp : toDatetimeColumn (colOf df j) with _ | parsed
      · simp [he, hfi, hp, hr]
      · rcases hm : maxDateCell parsed with _ | m
        · simp [he, hfi, hp, hm, hr]
        · by_cases hmem : m ∈ ds <;>
            simp [he, hfi, hp, hm, hmem, hr, eq_comm, and_comm] <;>
            exact fun h1 => h1.symm ▸ hmem

/-- Case characterization: the validator reports an out-of-window date
`dt` exactly when the table has rows, a date column is found, the column
parses with maximum date `dt`, and `dt` is not accepted. -/
lemma validate_snd_oow (df : DataFrame) (ds : List Int) (dt : Int) (hc : df.cols ≠ []) :
    (validate_report_date df ds).2 = .dateOutOfWindow dt ↔
      df.rows ≠ [] ∧ ∃ j, df.cols.findIdx? hasDateName = some j ∧
        ∃ parsed, toDatetimeColumn (colOf df j) = some parsed ∧
          maxDateCell parsed = some dt ∧ dt ∉ ds := by
  rw [validate_report_date]
  by_cases he : df.empty
  · simp [he, (empty_iff_rows df hc).mp he]
  · have hr := rows_ne_of_not_empty df he
    rcases hfi : df.cols.findIdx? hasDateName with _ | j
    · simp [he, hfi, hr]
    · rcases hp : toDatetimeColumn (colOf df j) with _ | parsed
      · simp [he, hfi, hp, hr]
      · rcases hm : maxDateCell parsed with _ | m
        · simp [he, hfi, hp, hm, hr]
        · by_cases hmem : m ∈ ds <;>
            simp [he, hfi, hp, hm, hmem, hr, eq_comm, and_comm] <;>
            exact fun h1 => h1.symm ▸ hmem

/-- Forward direction used by the report selector: a valid verdict always
carries an accepted date (no column-shape assumption needed). -/
lemma validate_valid_mem (df : DataFrame) (ds : List Int) (d : Int) :
    (validate_report_date df ds).2 = .valid d → d ∈ ds := by
  rw [validate_report_date]
  by_cases he : df.empty
  · simp [he]
  · rcases hfi : df.cols.findIdx? hasDateName with _ | j
    · simp [he, hfi]
    · rcases hp : toDatetimeColumn (colOf df j) with _ | parsed
      · simp [he, hfi, hp]
      · rcases hm : maxDateCell parsed with _ | m
        · simp [he, hfi, hp, hm]
        · by_cases hmem : m ∈ ds
          · simp [he, hfi, hp, hm, hmem]
            intro hmd
            subst hmd
            exact hmem
          · simp [he, hfi, hp, hm, hmem]

/-! ## Claim C4 and claim C7 -/

/-- C4: the Schema & Date Validator fails with EmptyTable exactly when
the table has zero rows; fails with NoDateColumn exactly when (the table
has rows and) no column name contains the substring "date"
case-insensitively, the first such column in column order being used
otherwise; and when the chosen column parses as dates with a maximum, it
succeeds exactly when that maximum is a member of the accepted-date set,
failing with DateOutOfWindow carrying the actual date otherwise.  The
hypothesis records that the table has at least one column, as every table
`pd.read_csv` returns does. -/
theorem claim_C4_validator_outcomes (df : DataFrame) (ds : List Int)
    (hc : df.cols ≠ []) :
    ((validate_report_date df ds).2 = .emptyTable ↔ df.rows = []) ∧
    ((validate_report_date df ds).2 = .noDateColumn ↔
      df.rows ≠ [] ∧ df.cols.findIdx? hasDateName = none) ∧
    (∀ dt, (validate_report_date df ds).2 = .valid dt ↔
      df.rows ≠ [] ∧ ∃ j, df.cols.findIdx? hasDateName = some j ∧
        ∃ parsed, toDatetimeColumn (colOf df j) = some parsed ∧
          maxDateCell parsed = some dt ∧ dt ∈ ds) ∧
    (∀ dt, (validate_report_date df ds).2 = .dateOutOfWindow dt ↔
      df.rows ≠ [] ∧ ∃ j, df.cols.findIdx? hasDateName = some j ∧
        ∃ parsed, toDatetimeColumn (colOf df j) = some parsed ∧
          maxDateCell parsed = some dt ∧ dt ∉ ds) :=
  ⟨validate_snd_emptyTable df ds hc,
   validate_snd_noDateColumn df ds hc,
   fun dt => validate_snd_valid df ds dt hc,
   fun dt => validate_snd_oow df ds dt hc⟩

/-- Witness for C4: a table with one column and no rows is rejected as
empty. -/
theorem claim_C4_witness :
    (validate_report_date ⟨["Date"], []⟩ []).2 = .emptyTable :=
  (claim_C4_validator_outcomes ⟨["Date"], []⟩ [] (by decide)).1.mpr rfl

/-- C7: whenever the Report Selector returns a record rather than
NotFound, the record's validated date is a member of the accepted-date
set passed to it. -/
theorem claim_C7_selected_date_in_window (dir : ReportsDir) (rt : String)
    (wds : List String) (ds : List Int) (df : DataFrame) (f : String) (d : Int)
    (h : find_and_validate_report dir rt wds ds = some (df, f, d)) : d ∈ ds := by
  obtain ⟨w, hwmem, hwc⟩ := List.exists_of_findSome?_eq_some h
  rw [reportCandidate] at hwc
  rcases hl : dirLookup dir (candidateFile rt w) with _ | df0 <;> rw [hl] at hwc
  · cases hwc
  · dsimp only at hwc
    rcases hv : validate_report_date df0 ds with ⟨df2, r⟩
    rw [hv] at hwc
    cases r with
    | valid d2 =>
      have hd : d2 = d := by
        cases hwc
        rfl
      apply validate_valid_mem df0 ds d
      rw [hv, hd]
    | emptyTable => cases hwc
    | noDateColumn => cases hwc
    | dateOutOfWindow a => cases hwc
    | parseError => cases hwc

/-- Witness for C7: a Friday window with a valid Friday file; the
returned date 4 is in the window. -/
theorem claim_C7_witness : (4 : Int) ∈ ([4, 3, 2, 1, 0] : List Int) :=
  claim_C7_selected_date_in_window
    [("CompositeView_Diff_Fri.csv", ⟨["Date"], [[Cell.datestr "2024-06-14" 4]]⟩)]
    "CompositeView" ["Fri", "Thu", "Wed", "Tue", "Mon"] [4, 3, 2, 1, 0]
    ⟨["Date"], [[Cell.date 4]]⟩ "CompositeView_Diff_Fri.csv" 4 rfl

/-! ## Helper lemmas: validator frame conditions and selector provenance -/

/-- Frame conditions of a full-length column assignment. -/
lemma colOf_setCol_preserved (df : DataFrame) (j : Nat) (col : List Cell)
    (hlen : col.length = df.rows.length) (j' : Nat) (hne : j' ≠ j) :
    colOf (setCol df j col) j' = colOf df j' := by
  rw [colOf_setCol_ne df j col j' hne,
    zip_fst_map df.rows col hlen (fun r => r.getD j' Cell.nan)]
  rfl

/-- The validator only ever touches the chosen date column: column names,
row count and every other column of the table it hands back are those of
the input table. -/
lemma validate_fst_frame (df : DataFrame) (ds : List Int) :
    ((validate_report_date df ds).1).cols = df.cols ∧
    ((validate_report_date df ds).1).rows.length = df.rows.length ∧
    ∀ j', df.cols.findIdx? hasDateName ≠ some j' →
      colOf (validate_report_date df ds).1 j' = colOf df j' := by
  rw [validate_report_date]
  by_cases he : df.empty
  · simp [he]
  · rcases hfi : df.cols.findIdx? hasDateName with _ | j
    · simp [he, hfi]
    · rcases hp : toDatetimeColumn (colOf df j) with _ | parsed
      · simp [he, hfi, hp]
      · have hlen : parsed.length = df.rows.length := by
          have hl2 := toDatetimeColumn_length (colOf df j) parsed hp
          simpa [colOf] using hl2
        have hframe : ∀ j', j' ≠ j → colOf (setCol df j parsed) j' = colOf df j' :=
          fun j' hne => colOf_setCol_preserved df j parsed hlen j' hne
        have hne_of : ∀ j', some j ≠ some j' → j' ≠ j := by
          intro j' hne heq
          exact hne (by rw [heq])
        rcases hm : maxDateCell parsed with _ | m
        · simp only [he, hfi, hp, hm]
          refine ⟨setCol_cols df j parsed, setCol_rows_length df j parsed hlen, ?_⟩
          intro j' hne
          exact hframe j' (hne_of j' hne)
        · by_cases hmem : m ∈ ds <;>
            simp only [he, hfi, hp, hm, hmem, if_true, if_false] <;>
            refine ⟨setCol_cols df j parsed, setCol_rows_length df j parsed hlen, ?_⟩ <;>
            intro j' hne <;>
            exact hframe j' (hne_of j' hne)

/-- Provenance: a record returned by the selector carries exactly the
table the validator handed back for some candidate file of the
directory. -/
lemma find_report_provenance (dir : ReportsDir) (rt : String)
    (wds : List String) (ds : List Int) (df : DataFrame) (f : String) (d : Int)
    (h : find_and_validate_report dir rt wds ds = some (df, f, d)) :
    ∃ w df0, dirLookup dir (candidateFile rt w) = some df0 ∧
      df = (validate_report_date df0 ds).1 ∧ f = candidateFile rt w := by
  obtain ⟨w, hwmem, hwc⟩ := List.exists_of_findSome?_eq_some h
  rw [reportCandidate] at hwc
  rcases hl : dirLookup dir (candidateFile rt w) with _ | df0 <;> rw [hl] at hwc
  · cases hwc
  · dsimp only at hwc
    rcases hv : validate_report_date df0 ds with ⟨df2, r⟩
    rw [hv] at hwc
    cases r with
    | valid d2 =>
      cases hwc
      exact ⟨w, df0, hl, by rw [hv], rfl⟩
    | emptyTable => cases hwc
    | noDateColumn => cases hwc
    | dateOutOfWindow a => cases hwc
    | parseError => cases hwc

/-! ## Claim C2 -/

/-- Counterexample to C2 as stated: the claim says the table the Audit
Pipeline consumes is the one originally loaded, unaffected by the
validator's date-column coercion.  On a Friday window, the selector
returns the coerced table (its date cell is a datetime value), which
differs from the stored table (whose date cell is text). -/
theorem claim_C2_counterexample :
    (find_and_validate_report
        [("CompositeView_Diff_Fri.csv", ⟨["Date"], [[Cell.datestr "2024-06-14" 4]]⟩)]
        "CompositeView" ["Fri", "Thu", "Wed", "Tue", "Mon"] [4, 3, 2, 1, 0]).map
        (fun r => r.1) =
      some ⟨["Date"], [[Cell.date 4]]⟩ ∧
    (⟨["Date"], [[Cell.date 4]]⟩ : DataFrame) ≠
      ⟨["Date"], [[Cell.datestr "2024-06-14" 4]]⟩ :=
  ⟨rfl, by decide⟩

/-- C2 amended: validation coerces the date column of the table in
place, and the table the Audit Pipeline consumes is the validator's
output table — the loaded table with (at most) its chosen date column
replaced by parsed datetime values.  The coercion is local to that
column: column names, row count and every other column are unchanged. -/
theorem claim_C2_validator_mutation_frame :
    (∀ (df : DataFrame) (ds : List Int),
      ((validate_report_date df ds).1).cols = df.cols) ∧
    (∀ (df : DataFrame) (ds : List Int),
      ((validate_report_date df ds).1).rows.length = df.rows.length) ∧
    (∀ (df : DataFrame) (ds : List Int) (j' : Nat),
      df.cols.findIdx? hasDateName ≠ some j' →
      colOf (validate_report_date df ds).1 j' = colOf df j') ∧
    (∀ (dir : ReportsDir) (rt : String) (wds : List String) (ds : List Int)
       (df : DataFrame) (f : String) (d : Int),
      find_and_validate_report dir rt wds ds = some (df, f, d) →
      ∃ w df0, dirLookup dir (candidateFile rt w) = some df0 ∧
        df = (validate_report_date df0 ds).1) :=
  ⟨fun df ds => (validate_fst_frame df ds).1,
   fun df ds => (validate_fst_frame df ds).2.1,
   fun df ds j' h => (validate_fst_frame df ds).2.2 j' h,
   fun dir rt wds ds df f d h => by
     obtain ⟨w, df0, h1, h2, _⟩ := find_report_provenance dir rt wds ds df f d h
     exact ⟨w, df0, h1, h2⟩⟩

/-- Witness for C2 amended: a non-date column is untouched by
validation on a concrete two-column table. -/
theorem claim_C2_witness :
    colOf (validate_report_date
        ⟨["Equipment Name", "Date"], [[Cell.str "BRK-1", Cell.datestr "2024-06-14" 4]]⟩
        [4]).1 0 =
      colOf ⟨["Equipment Name", "Date"], [[Cell.str "BRK-1", Cell.datestr "2024-06-14" 4]]⟩ 0 :=
  claim_C2_validator_mutation_frame.2.2.1
    ⟨["Equipment Name", "Date"], [[Cell.str "BRK-1", Cell.datestr "2024-06-14" 4]]⟩
    [4] 0 (by decide)

/-! ## Claim C1 -/

/-- Counterexample to C1 as stated: with a Friday reference date the
window labels are Fri, Thu, Wed, Tue, Mon (most recent first), and the
directory holds a valid Thu file and a valid Tue file.  The claim says
the Thu candidate is chosen; the selector iterates the REVERSED window —
oldest label first — and returns the Tue record. -/
theorem claim_C1_counterexample :
    find_and_validate_report
        [("CompositeView_Diff_Thu.csv", ⟨["Date"], [[Cell.datestr "2024-06-13" 3]]⟩),
         ("CompositeView_Diff_Tue.csv", ⟨["Date"], [[Cell.datestr "2024-06-11" 1]]⟩)]
        "CompositeView"
        (get_expected_weekdays_and_dates ⟨4, 0⟩).1
        (get_expected_weekdays_and_dates ⟨4, 0⟩).2 =
      some (⟨["Date"], [[Cell.date 1]]⟩, "CompositeView_Diff_Tue.csv", 1) ∧
    "CompositeView_Diff_Tue.csv" ≠ "CompositeView_Diff_Thu.csv" :=
  ⟨rfl, by decide⟩

/-- C1 amended: the Report Selector iterates the candidate filenames
from the OLDEST weekday label of the window to the most recent (the loop
reverses the most-recent-first window) and returns the first existing
file that validates: a validating candidate is returned exactly when
every strictly older candidate fails; NotFound is returned exactly when
every candidate fails.  In particular, if both the Thu and the Tue
candidates exist and are valid, the Tue one is chosen. -/
theorem claim_C1_selector_order :
    (∀ (dir : ReportsDir) (rt : String) (ds : List Int) (pre : List String)
       (w : String) (post : List String) (r : DataFrame × String × Int),
       reportCandidate dir rt ds w = some r →
       (∀ u ∈ post, reportCandidate dir rt ds u = none) →
       find_and_validate_report dir rt (pre ++ w :: post) ds = some r) ∧
    (∀ (dir : ReportsDir) (rt : String) (wds : List String) (ds : List Int),
       find_and_validate_report dir rt wds ds = none ↔
         ∀ w ∈ wds, reportCandidate dir rt ds w = none) := by
  constructor
  · intro dir rt ds pre w post r hw hpost
    rw [find_and_validate_report, List.reverse_append, List.reverse_cons]
    have hrev : post.reverse.findSome? (reportCandidate dir rt ds) = none := by
      rw [List.findSome?_eq_none_iff]
      intro x hx
      exact hpost x (List.mem_reverse.mp hx)
    rw [List.findSome?_append, List.findSome?_append, hrev]
    simp [List.findSome?_cons, hw]
  · intro dir rt wds ds
    rw [find_and_validate_report, List.findSome?_eq_none_iff]
    constructor
    · intro h w hw
      exact h w (List.mem_reverse.mpr hw)
    · intro h w hw
      exact h w (List.mem_reverse.mp hw)

/-- Witness for C1 amended: a directory holding only a valid Thu file,
window labels Fri then Thu; the Thu candidate validates and no candidate
is older, so the Thu record is returned. -/
theorem claim_C1_witness :
    find_and_validate_report
        [("CompositeView_Diff_Thu.csv", ⟨["Date"], [[Cell.datestr "2024-06-13" 3]]⟩)]
        "CompositeView" ["Fri", "Thu"] [4, 3, 2, 1, 0] =
      some (⟨["Date"], [[Cell.date 3]]⟩, "CompositeView_Diff_Thu.csv", 3) :=
  claim_C1_selector_order.1
    [("CompositeView_Diff_Thu.csv", ⟨["Date"], [[Cell.datestr "2024-06-13" 3]]⟩)]
    "CompositeView" [4, 3, 2, 1, 0] ["Fri"] "Thu" []
    (⟨["Date"], [[Cell.date 3]]⟩, "CompositeView_Diff_Thu.csv", 3)
    rfl (fun u hu => absurd hu (List.not_mem_nil u))

/-! ## Helper lemmas: the document locator -/

/-- The file scan of one directory is the first match of the per-file
test, path-joined. -/
lemma find_pdf_files_eq (id root : String) (files : List String) :
    files.findSome? (fun file =>
        if fileMatchB id file then some (joinPath root file) else none) =
      (files.find? (fileMatchB id)).map (joinPath root) := by
  induction files with
  | nil => rfl
  | cons f fs ih =>
    by_cases h : fileMatchB id f <;>
      simp [List.findSome?_cons, List.find?_cons, h, ih]

/-- The whole walk scan is the first match over the flattened
(directory, file) enumeration, path-joined. -/
lemma find_pdf_eq_flat (walk : PdfWalk) (id : String) :
    find_pdf walk id =
      ((flatFiles walk).find? (fun p => fileMatchB id p.2)).map
        (fun p => joinPath p.1 p.2) := by
  induction walk with
  | nil => rfl
  | cons rf rest ih =>
    obtain ⟨root, files⟩ := rf
    simp only [find_pdf] at ih ⊢
    rw [List.findSome?_cons, find_pdf_files_eq id root files]
    simp only [flatFiles, List.flatMap_cons, List.find?_append, List.find?_map]
    rcases hf : files.find? (fileMatchB id) with _ | f
    · have hcomp : files.find?
          ((fun p => fileMatchB id (Prod.snd p)) ∘ (fun f => (root, f))) = none := by
        simpa [Function.comp] using hf
      simp [hcomp, ih, flatFiles]
    · have hcomp : files.find?
          ((fun p => fileMatchB id (Prod.snd p)) ∘ (fun f => (root, f))) = some f := by
        simpa [Function.comp] using hf
      simp [hcomp, joinPath]

/-! ## Claim C5 -/

/-- Counterexample to C5 as stated: the claim reads the second match
disjunct as "the filename with its extension stripped equals the
identifier".  The code removes EVERY occurrence of `.pdf`, so for the
file `x.pdfy.pdf` and identifier `xy` the locator returns a path even
though the identifier is neither a substring of the filename nor equal to
its extension-stripped stem (`x.pdfy`). -/
theorem claim_C5_counterexample :
    find_pdf [("base", ["x.pdfy.pdf"])] "xy" = some "base/x.pdfy.pdf" ∧
    specMatchesFile "xy" "x.pdfy.pdf" = false :=
  ⟨rfl, rfl⟩

/-- C5 amended: the Document Locator considers only files whose
lower-cased name ends in `.pdf`, and such a file matches exactly when the
trimmed lower-cased identifier is a substring of the lower-cased
filename, or the lower-cased filename with EVERY occurrence of `.pdf`
removed equals it; the first matching full path in walk order is
returned, and NotFound is returned when nothing matches or when the
search root does not exist (its walk enumeration is then empty). -/
theorem claim_C5_locator_characterization :
    (∀ (walk : PdfWalk) (id : String),
      find_pdf walk id =
        ((flatFiles walk).find? (fun p => fileMatchB id p.2)).map
          (fun p => joinPath p.1 p.2)) ∧
    (∀ (id file : String),
      fileMatchB id file = true → strEndsWith (strLower file) ".pdf" = true) ∧
    (∀ (id file : String),
      fileMatchB id file =
        (strEndsWith (strLower file) ".pdf" &&
          (strContains (strLower file) (strLower (strTrim id)) ||
            decide (strReplaceAll (strLower file) ".pdf" "" = strLower (strTrim id))))) ∧
    (∀ id : String, find_pdf [] id = none) := by
  refine ⟨find_pdf_eq_flat, ?_, fun _ _ => rfl, fun _ => rfl⟩
  intro id file h
  simp only [fileMatchB, Bool.and_eq_true] at h
  exact h.1

/-- Witness for C5 amended: the matching file `brk-101.pdf` indeed has
the `.pdf` extension. -/
theorem claim_C5_witness :
    strEndsWith (strLower "brk-101.pdf") ".pdf" = true :=
  claim_C5_locator_characterization.2.1 "BRK-101" "brk-101.pdf" rfl

/-! ## Helper lemmas: the audit pipeline -/

/-- A successful audit loop produces one entry per row, in row order. -/
lemma auditEntries_forall₂ (walk : PdfWalk) (jn jt : Nat) :
    ∀ (rows : List (List Cell)) (es : List AuditEntry),
      auditEntries walk jn jt rows = some es →
      List.Forall₂ (fun row e => auditRow walk jn jt row = some e) rows es := by
  intro rows
  induction rows with
  | nil =>
    intro es h
    cases h
    exact List.Forall₂.nil
  | cons r rs ih =>
    intro es h
    rw [auditEntries] at h
    rcases ha : auditRow walk jn jt r with _ | e <;> rw [ha] at h
    · cases h
    · rcases hr : auditEntries walk jn jt rs with _ | es2 <;> rw [hr] at h
      · cases h
      · cases h
        exact List.Forall₂.cons ha (ih es2 hr)

/-- Every audit entry has status `Exists` or `Missing`. -/
lemma auditRow_status (walk : PdfWalk) (jn jt : Nat) (row : List Cell)
    (e : AuditEntry) (h : auditRow walk jn jt row = some e) :
    e.status = "Exists" ∨ e.status = "Missing" := by
  rw [auditRow] at h
  rcases hn : cellToStr (row.getD jn Cell.nan) with _ | name <;> rw [hn] at h
  · cases h
  · dsimp only at h
    rcases hp : find_pdf walk name with _ | p <;> rw [hp] at h <;> cases h <;> simp

/-- Status dichotomy over a whole successful audit run. -/
lemma auditEntries_status (walk : PdfWalk) (jn jt : Nat) :
    ∀ (rows : List (List Cell)) (es : List AuditEntry),
      auditEntries walk jn jt rows = some es →
      ∀ e ∈ es, e.status = "Exists" ∨ e.status = "Missing" := by
  intro rows
  induction rows with
  | nil =>
    intro es h
    cases h
    intro e he
    cases he
  | cons r rs ih =>
    intro es h
    rw [auditEntries] at h
    rcases ha : auditRow walk jn jt r with _ | e0 <;> rw [ha] at h
    · cases h
    · rcases hr : auditEntries walk jn jt rs with _ | es2 <;> rw [hr] at h
      · cases h
      · cases h
        intro e he
        rcases List.mem_cons.mp he with rfl | he2
        · exact auditRow_status walk jn jt r e ha
        · exact ih es2 hr e he2

/-- The summary counters of the result table count entry statuses. -/
lemma countStatus_result (es : List AuditEntry) (v : String) :
    countStatus (resultDataFrame es) v =
      (es.filter (fun e => decide (e.status = v))).length := by
  rw [countStatus]
  rw [show (resultDataFrame es).cols.findIdx?
      (fun c => decide (c = "PDF Status")) = some 2 from rfl]
  show ((es.map entryRow).filter
      (fun r => decide (r.getD 2 Cell.nan = Cell.str v))).length = _
  rw [List.filter_map]
  rw [List.length_map]
  congr 1
  apply List.filter_congr
  intro e _
  show decide ((entryRow e).getD 2 Cell.nan = Cell.str v) = decide (e.status = v)
  simp [entryRow]

/-- Splitting a status-dichotomous entry list by status is exhaustive. -/
lemma filter_status_split :
    ∀ (es : List AuditEntry),
      (∀ e ∈ es, e.status = "Exists" ∨ e.status = "Missing") →
      (es.filter (fun e => decide (e.status = "Exists"))).length +
        (es.filter (fun e => decide (e.status = "Missing"))).length = es.length := by
  intro es
  induction es with
  | nil =>
    intro _
    rfl
  | cons e rest ih =>
    intro h
    have he := h e (List.mem_cons_self e rest)
    have hrest := ih (fun x hx => h x (List.mem_cons_of_mem e hx))
    rcases he with he | he <;>
      simp [List.filter_cons, he, ← hrest] <;> omega

/-- An abort in report selection propagates to the combined stage. -/
lemma combinedDf_none (now : PyDateTime) (dir : ReportsDir)
    (h : selectedCv now dir = none ∨ selectedSub now dir = none) :
    combinedDf now dir = none := by
  rcases h with h | h
  · rw [combinedDf, h]
  · rw [combinedDf, h]
    rcases selectedCv now dir with _ | a
    · rfl
    · rcases a with ⟨x, y, z⟩
      rfl

/-- Destructing a successful pipeline run into its stages. -/
lemma check_pdf_status_some (now : PyDateTime) (dir : ReportsDir) (walk : PdfWalk)
    (outF outN : String) (rdf : DataFrame) (writes : List (String × DataFrame))
    (h : check_pdf_status now dir walk outF outN = (some rdf, writes)) :
    ∃ f es jn jt,
      filteredDf now dir = some f ∧
      f.rows ≠ [] ∧
      f.cols.findIdx? (fun c => decide (c = "Equipment Name")) = some jn ∧
      f.cols.findIdx? (fun c => decide (c = "Equipment Type")) = some jt ∧
      auditEntries walk jn jt f.rows = some es ∧
      rdf = resultDataFrame es ∧
      writes = [(joinPath outF outN, resultDataFrame es)] := by
  rw [check_pdf_status] at h
  rcases ha : auditOf now dir walk with _ | es <;> rw [ha] at h
  · simp at h
  · rw [auditOf] at ha
    rcases hf : filteredDf now dir with _ | f <;> rw [hf] at ha
    · cases ha
    · dsimp only at ha
      by_cases hemp : f.rows.isEmpty
      · rw [if_pos hemp] at ha
        cases ha
      · rw [if_neg hemp] at ha
        rcases hjn : f.cols.findIdx? (fun c => decide (c = "Equipment Name")) with _ | jn <;>
          rw [hjn] at ha
        · simp at ha
        · rcases hjt : f.cols.findIdx? (fun c => decide (c = "Equipment Type")) with _ | jt <;>
            rw [hjt] at ha
          · simp at ha
          · dsimp only at ha
            obtain ⟨h1, h2⟩ := Prod.mk.injEq .. ▸ h
            cases h1
            exact ⟨f, es, jn, jt, rfl, by simpa using hemp, hjn, hjt, ha, rfl, h2.symm⟩

/-! ## Claim C6 -/

/-- C6: on every abort condition — a missing report, missing required
columns, or an empty filtered set — the pipeline returns the failure
signal and writes nothing; and an output write happens exactly on the
completed path, a single whole file at the output location. -/
theorem claim_C6_abort_writes_nothing (now : PyDateTime) (dir : ReportsDir)
    (walk : PdfWalk) (outF outN : String) :
    ((selectedCv now dir = none ∨ selectedSub now dir = none) →
      check_pdf_status now dir walk outF outN = (none, [])) ∧
    (∀ c, combinedDf now dir = some c → missingColumns c ≠ [] →
      check_pdf_status now dir walk outF outN = (none, [])) ∧
    (∀ f, filteredDf now dir = some f → f.rows = [] →
      check_pdf_status now dir walk outF outN = (none, [])) ∧
    ((check_pdf_status now dir walk outF outN).1 = none →
      (check_pdf_status now dir walk outF outN).2 = []) ∧
    (∀ rdf, (check_pdf_status now dir walk outF outN).1 = some rdf →
      (check_pdf_status now dir walk outF outN).2 = [(joinPath outF outN, rdf)]) := by
  refine ⟨?_, ?_, ?_, ?_, ?_⟩
  · intro h
    have hc := combinedDf_none now dir h
    have hf : filteredDf now dir = none := by rw [filteredDf, hc]
    have ha : auditOf now dir walk = none := by rw [auditOf, hf]
    rw [check_pdf_status, ha]
  · intro c hc hm
    have hf : filteredDf now dir = none := by
      rw [filteredDf, hc]
      simp [hm]
    have ha : auditOf now dir walk = none := by rw [auditOf, hf]
    rw [check_pdf_status, ha]
  · intro f hf hrows
    have ha : auditOf now dir walk = none := by
      rw [auditOf, hf]
      simp [hrows]
    rw [check_pdf_status, ha]
  · intro h1
    rcases ha : auditOf now dir walk with _ | es <;>
      rw [check_pdf_status, ha]
    rw [check_pdf_status, ha] at h1
    cases h1
  · intro rdf h1
    rcases ha : auditOf now dir walk with _ | es <;>
      rw [check_pdf_status, ha] at h1 ⊢
    · cases h1
    · dsimp only at h1 ⊢
      simp only [Option.some.injEq] at h1
      rw [h1]

/-- Witness for C6: an empty reports directory aborts the run with no
write. -/
theorem claim_C6_witness :
    check_pdf_status ⟨0, 0⟩ [] [] "out" "result.csv" = (none, []) :=
  (claim_C6_abort_writes_nothing ⟨0, 0⟩ [] [] "out" "result.csv").1 (Or.inl rfl)

/-- Destructing a successful equipment filter. -/
lemma filterEquip_some (c f : DataFrame) (h : filterEquip c = some f) :
    ∃ j, c.cols.findIdx? (fun x => decide (x = "Equipment Type")) = some j ∧
      f.cols = c.cols ∧
      f.rows = c.rows.filter (fun r => cellIsin (r.getD j Cell.nan) targetTypes) := by
  rw [filterEquip] at h
  rcases hj : c.cols.findIdx? (fun x => decide (x = "Equipment Type")) with _ | j <;>
    rw [hj] at h
  · cases h
  · cases h
    exact ⟨j, rfl, rfl, rfl⟩

/-! ## Claim C8 -/

/-- C8: the AuditResult rows correspond one to one, in order, to the
rows of the filtered merged table; the merged table is the CompositeView
rows followed by the Substation rows in original order, and filtering
keeps surviving rows in that order. -/
theorem claim_C8_result_row_order :
    (∀ (now : PyDateTime) (dir : ReportsDir) (walk : PdfWalk) (outF outN : String)
       (rdf : DataFrame) (writes : List (String × DataFrame)),
      check_pdf_status now dir walk outF outN = (some rdf, writes) →
      ∃ f es jn jt,
        filteredDf now dir = some f ∧
        f.cols.findIdx? (fun c => decide (c = "Equipment Name")) = some jn ∧
        f.cols.findIdx? (fun c => decide (c = "Equipment Type")) = some jt ∧
        auditEntries walk jn jt f.rows = some es ∧
        List.Forall₂ (fun row e => auditRow walk jn jt row = some e) f.rows es ∧
        rdf.rows = es.map entryRow) ∧
    (∀ a b : DataFrame, (concatDf a b).rows =
      a.rows.map (fun r => reindexRow a.cols r (unionCols a.cols b.cols)) ++
        b.rows.map (fun r => reindexRow b.cols r (unionCols a.cols b.cols))) ∧
    (∀ c f : DataFrame, filterEquip c = some f →
      ∃ j, c.cols.findIdx? (fun x => decide (x = "Equipment Type")) = some j ∧
        f.rows = c.rows.filter (fun r => cellIsin (r.getD j Cell.nan) targetTypes)) := by
  refine ⟨?_, fun a b => rfl, ?_⟩
  · intro now dir walk outF outN rdf writes h
    obtain ⟨f, es, jn, jt, hf, hrows, hjn, hjt, ha, hrdf, hw⟩ :=
      check_pdf_status_some now dir walk outF outN rdf writes h
    refine ⟨f, es, jn, jt, hf, hjn, hjt, ha,
      auditEntries_forall₂ walk jn jt f.rows es ha, ?_⟩
    rw [hrdf]
    rfl
  · intro c f h
    obtain ⟨j, hj, _, hrows⟩ := filterEquip_some c f h
    exact ⟨j, hj, hrows⟩

/-- Concrete report table used by the pipeline witnesses. -/
def fixtureReport : DataFrame :=
  ⟨["Equipment Name", "Equipment Type", "Date"],
   [[Cell.str "BRK-1", Cell.str "Circuit Breaker", Cell.datestr "2024-06-14" 4]]⟩

/-- Concrete reports directory used by the pipeline witnesses. -/
def fixtureDir : ReportsDir :=
  [("CompositeView_Diff_Fri.csv", fixtureReport),
   ("Substation_Diff_Fri.csv", fixtureReport)]

/-- Concrete document walk used by the pipeline witnesses. -/
def fixtureWalk : PdfWalk := [("base", ["brk-1.pdf"])]

/-- The audit entry the fixtures produce. -/
def fixtureEntry : AuditEntry :=
  ⟨"BRK-1", Cell.str "Circuit Breaker", "Exists", "base/brk-1.pdf"⟩

/-- Witness for C8: a completed concrete run, with its stage data. -/
theorem claim_C8_witness :
    ∃ f es jn jt,
      filteredDf ⟨4, 0⟩ fixtureDir = some f ∧
      f.cols.findIdx? (fun c => decide (c = "Equipment Name")) = some jn ∧
      f.cols.findIdx? (fun c => decide (c = "Equipment Type")) = some jt ∧
      auditEntries fixtureWalk jn jt f.rows = some es ∧
      List.Forall₂ (fun row e => auditRow fixtureWalk jn jt row = some e) f.rows es ∧
      (resultDataFrame [fixtureEntry, fixtureEntry]).rows = es.map entryRow :=
  claim_C8_result_row_order.1 ⟨4, 0⟩ fixtureDir fixtureWalk "out" "o.csv"
    (resultDataFrame [fixtureEntry, fixtureEntry])
    [("out/o.csv", resultDataFrame [fixtureEntry, fixtureEntry])] rfl

/-! ## Claim C10 -/

/-- C10: whenever the run reaches the summary step (the audit loop
succeeded), there is at least one audit entry — so the percentage
computations never divide by zero — every entry's status is `Exists` or
`Missing`, and the two summary counters add up to the total row count. -/
theorem claim_C10_summary_counts (now : PyDateTime) (dir : ReportsDir)
    (walk : PdfWalk) (es : List AuditEntry)
    (h : auditOf now dir walk = some es) :
    1 ≤ es.length ∧
    (∀ e ∈ es, e.status = "Exists" ∨ e.status = "Missing") ∧
    countStatus (resultDataFrame es) "Exists" +
      countStatus (resultDataFrame es) "Missing" =
      (resultDataFrame es).rows.length ∧
    1 ≤ (resultDataFrame es).rows.length := by
  rw [auditOf] at h
  rcases hf : filteredDf now dir with _ | f <;> rw [hf] at h
  · cases h
  · dsimp only at h
    by_cases hemp : f.rows.isEmpty
    · rw [if_pos hemp] at h
      cases h
    · rw [if_neg hemp] at h
      rcases hjn : f.cols.findIdx? (fun c => decide (c = "Equipment Name")) with _ | jn <;>
        rw [hjn] at h
      · simp at h
      · rcases hjt : f.cols.findIdx? (fun c => decide (c = "Equipment Type")) with _ | jt <;>
          rw [hjt] at h
        · simp at h
        · dsimp only at h
          have hlen : f.rows.length = es.length :=
            (auditEntries_forall₂ walk jn jt f.rows es h).length_eq
          have hst := auditEntries_status walk jn jt f.rows es h
          have hrows1 : 1 ≤ f.rows.length := by
            rcases hr : f.rows with _ | ⟨r, rs⟩
            · rw [hr] at hemp
              simp at hemp
            · simp
          have h1 : 1 ≤ es.length := by omega
          refine ⟨h1, hst, ?_, ?_⟩
          · rw [countStatus_result, countStatus_result]
            have hsplit := filter_status_split es hst
            simpa [resultDataFrame] using hsplit
          · simpa [resultDataFrame] using h1

/-- Witness for C10: the counters of the completed concrete run. -/
theorem claim_C10_witness :
    1 ≤ ([fixtureEntry, fixtureEntry] : List AuditEntry).length ∧
    (∀ e ∈ ([fixtureEntry, fixtureEntry] : List AuditEntry),
      e.status = "Exists" ∨ e.status = "Missing") ∧
    countStatus (resultDataFrame [fixtureEntry, fixtureEntry]) "Exists" +
      countStatus (resultDataFrame [fixtureEntry, fixtureEntry]) "Missing" =
      (resultDataFrame [fixtureEntry, fixtureEntry]).rows.length ∧
    1 ≤ (resultDataFrame [fixtureEntry, fixtureEntry]).rows.length :=
  claim_C10_summary_counts ⟨4, 0⟩ fixtureDir fixtureWalk
    [fixtureEntry, fixtureEntry] rfl

end CVOfflineCheck
